import Mathlib

/-
Verification of the natural-language-query agent of the technology-risk
register ("Risk SME agent").

Shallow embedding of:
  * `app/risk_sme/risk_sme_agent.py` — `_extract_execute_block`,
    `execute_generated_code`, `generate_llm_code`, `risk_sme_agent`;
  * `app/api/endpoints/chat.py` — the `chat` endpoint;
  * `app/schemas/chat.py` — `ChatRequest` validation and `ChatResponse` shape.

The LLM service and the Python `exec` of a generated program are external,
non-deterministic effects; they are modelled as oracles passed in as
functions (the LLM maps a prompt to either raised-exception text or the
response text; `exec` maps the program text to the set of local bindings it
leaves behind, the text it printed, and the traceback text when it raises).
Everything else — extraction, namespace read-back, the retry protocol, the
endpoint's normalisation — is translated statement by statement from the
Python source.
-/

namespace RiskSME

/-! ## Python value model

The generated program binds arbitrary Python objects into `SAFE_LOCALS`.
The embedding models the Python values the pipeline inspects: `None`,
strings, lists and (string-keyed) dicts.  Truthiness mirrors Python:
`None`, `""`, `[]` and `{ }` are falsy. -/

inductive PyObj where
  | pynone : PyObj
  | pystr : String → PyObj
  | pylist : List PyObj → PyObj
  | pydict : List (String × PyObj) → PyObj
  deriving Repr

def PyObj.truthy : PyObj → Bool
  | .pynone => false
  | .pystr s => !s.isEmpty
  | .pylist l => !l.isEmpty
  | .pydict d => !d.isEmpty

/-- Python `repr` (escape sequences inside strings are not modelled; no
claim depends on them). -/
def PyObj.pyRepr : PyObj → String
  | .pynone => "None"
  | .pystr s => "'" ++ s ++ "'"
  | .pylist l => "[" ++ ", ".intercalate (l.attach.map (fun x => x.1.pyRepr)) ++ "]"
  | .pydict d =>
      "\x7b" ++
        ", ".intercalate (d.attach.map (fun x => "'" ++ x.1.1 ++ "': " ++ x.1.2.pyRepr)) ++
      "\x7d"
decreasing_by
  · simp_wf
    have := List.sizeOf_lt_of_mem x.2
    omega
  · simp_wf
    have h := List.sizeOf_lt_of_mem x.2
    have h2 : sizeOf x.1.2 < sizeOf x.1 := by
      obtain ⟨⟨k, v⟩, hm⟩ := x
      simp
    omega

/-- Python `str(·)`: the identity on strings, `repr` otherwise. -/
def PyObj.pyStr : PyObj → String
  | .pystr s => s
  | v => v.pyRepr

/-- Python `a or b`: `a` when truthy, else `b`. -/
def pyOr (a b : PyObj) : PyObj := if a.truthy then a else b

/-- Python `SAFE_LOCALS.get(name)`: `None` when the name is unbound. -/
def localsGet (o : Option PyObj) : PyObj := o.getD PyObj.pynone

/-! ## Observable effects

`Event` records the pipeline's externally visible calls: each LLM
generation request and each execution of a program text.  The pipeline
functions return the trace of events alongside their result, which lets
theorems state "no generation attempt is made" or "exactly one retry". -/

inductive Event where
  | genCall : String → Event
  | execCall : String → Event
  deriving Repr, DecidableEq

def genCalls (tr : List Event) : Nat :=
  (tr.filter (fun e => match e with | .genCall _ => true | _ => false)).length

def execCalls (tr : List Event) : Nat :=
  (tr.filter (fun e => match e with | .execCall _ => true | _ => false)).length

/-! ## `sys.stdout` model

`execute_generated_code` rebinds `sys.stdout` to a private `io.StringIO`
buffer for the duration of the `exec` and restores it in a `finally`
block.  The embedding models the binding as a channel selector together
with the text written to each channel so far; a `print` from the executed
program appends to whichever channel `sys.stdout` currently selects. -/

inductive Chan where
  | hostChan : Chan
  | bufChan : Chan
  deriving Repr, DecidableEq

structure SysState where
  sysStdout : Chan
  hostWritten : String
  bufWritten : String
  deriving Repr, DecidableEq

/-- Writing text through the current `sys.stdout` binding. -/
def writeOut (st : SysState) (t : String) : SysState :=
  match st.sysStdout with
  | .hostChan => { st with hostWritten := st.hostWritten ++ t }
  | .bufChan => { st with bufWritten := st.bufWritten ++ t }

/-! ## The `exec` oracle

The behaviour of `exec(code, SAFE_GLOBALS, SAFE_LOCALS)` on one program
text: the bindings left in `SAFE_LOCALS` when the program finishes or
raises (a binding made before a raise is still present), the text the
program printed, and the traceback text when it raised.  `raises = none`
means the program completed normally. -/

structure ExecOutcome where
  answer_text : Option PyObj
  answer_rows : Option PyObj
  answer_json : Option PyObj
  STATUS : Option PyObj
  printed : String
  raises : Option String
  deriving Repr

/-- Python `str.strip()`: drop leading and trailing whitespace.  (Defined
structurally over the character list so that proofs can evaluate it;
`Char.isWhitespace` covers the space, tab, newline and carriage-return
characters that matter here.) -/
def pyStrip (s : String) : String :=
  String.mk (((s.data.dropWhile Char.isWhitespace).reverse.dropWhile Char.isWhitespace).reverse)

/-! ## Program extraction (`_extract_execute_block`)

Python:
  `re.search(r"<execute_python>(.*?)</execute_python>", text, DOTALL | IGNORECASE)`
— the earliest occurrence of the opening tag that is followed by a closing
tag, with the (non-greedy) content running to the first closing tag; when
no such pair exists the whole text is the program.  Empty input raises
`RuntimeError`. -/

def openTagChars : List Char := "<execute_python>".data

def closeTagChars : List Char := "</execute_python>".data

/-- Does the (lower-case) tag stand at the head of `s`, case-insensitively? -/
def tagAt (tag : List Char) (s : List Char) : Bool :=
  (s.take tag.length).map Char.toLower == tag

/-- Drop everything up to and including the first occurrence of the tag;
`none` when the tag does not occur. -/
def dropThroughTag (tag : List Char) : List Char → Option (List Char)
  | [] => none
  | c :: rest =>
    if tagAt tag (c :: rest) then some ((c :: rest).drop tag.length)
    else dropThroughTag tag rest

/-- The characters before the first occurrence of the tag; `none` when the
tag does not occur. -/
def takeUntilTag (tag : List Char) : List Char → Option (List Char)
  | [] => none
  | c :: rest =>
    if tagAt tag (c :: rest) then some []
    else (takeUntilTag tag rest).map (fun l => c :: l)

/-- `_extract_execute_block` of `risk_sme_agent.py`: the code between the
`<execute_python>` tags, stripped; the whole text, stripped, when the tag
pair is absent; `RuntimeError` on empty input. -/
def _extract_execute_block (text : String) : Except String String :=
  if text = "" then .error "Empty content passed to code executor."
  else
    match dropThroughTag openTagChars text.data with
    | some rest =>
      match takeUntilTag closeTagChars rest with
      | some inner => .ok (pyStrip (String.mk inner))
      | none => .ok (pyStrip text)
    | none => .ok (pyStrip text)

/-! ## Sandboxed executor (`execute_generated_code`) -/

/-- The dict returned by `execute_generated_code`: keys `code`, `stdout`,
`error`, `answer`, `status`, `answer_rows`. -/
structure ExecResult where
  code : String
  stdout : String
  error : Option String
  answer : PyObj
  status : PyObj
  answer_rows : PyObj
  deriving Repr

/-- `execute_generated_code` of `risk_sme_agent.py`.  `run` is the `exec`
oracle.  Line by line: extract the code (propagating the `RuntimeError` on
empty content as `Except.error`); save `sys.stdout`, rebind it to a fresh
buffer; `exec` the code, catching any exception's traceback text; restore
`sys.stdout` in the `finally`; strip the buffer's contents; read back
`answer_text`/`answer_rows`/`answer_json` with Python `or`, and `STATUS`
with default `"unknown"`. -/
def execute_generated_code (run : String → ExecOutcome) (code_or_content : String)
    (st : SysState) : Except String (ExecResult × SysState) × List Event :=
  match _extract_execute_block code_or_content with
  | .error e => (.error e, [])
  | .ok code =>
    let _old_stdout := st.sysStdout
    let st1 : SysState := { st with sysStdout := Chan.bufChan, bufWritten := "" }
    let out := run code
    let st2 := writeOut st1 out.printed
    let err_text := out.raises
    let st3 : SysState := { st2 with sysStdout := _old_stdout }
    let printed := pyStrip st3.bufWritten
    let answer := pyOr (localsGet out.answer_text)
      (pyOr (localsGet out.answer_rows) (localsGet out.answer_json))
    let status := out.STATUS.getD (PyObj.pystr "unknown")
    (.ok ({ code := code, stdout := printed, error := err_text, answer := answer,
            status := status, answer_rows := localsGet out.answer_rows }, st3),
     [Event.execCall code])

/-! ## Prompt composition and code generation (`generate_llm_code`)

`PROMPT` of `risk_sme_agent.py` is a fixed template with two placeholders,
`\x7bschema_block\x7d` and `\x7bquestion\x7d`; the retry feedback prompt built in
`risk_sme_agent` (step 3.5) is an f-string with three.  The literal text is
carried over verbatim, split at the placeholders. -/

def PROMPT_part1 : String :=
  "You are a Risk Management Subject Matter Expert assistant. ANSWER USER QUESTIONS BY WRITING PYTHON CODE USING SQLALCHEMY.\n\nDatabase Schema & Samples (read-only):\n"

def PROMPT_part2 : String :=
  "\n\nExecution Environment (already imported/provided):\n- Variables:\n  * session: Session  # SQLAlchemy Session object for database queries\n  * Risk, RiskLogEntry, DropdownValue  # SQLAlchemy model classes\n  * and_, or_, func  # SQLAlchemy query helpers\n  * date, datetime, timedelta  # datetime utilities\n  * user_request: str  # the original user question\n\n- Modules available (no import needed):\n  * re - Regular expressions for string parsing/matching\n  * json - JSON encoding/decoding\n  * math - Mathematical functions (sqrt, floor, ceil, etc.)\n  * statistics - Statistical calculations (mean, median, stdev, etc.)\n  * All Python built-ins: len, str, int, float, min, max, sum, sorted, any, all, enumerate, zip, range\n\n- Query Examples:\n  ```python\n  # Simple filter\n  risks = session.query(Risk).filter(Risk.risk_status == \"Active\").all()\n\n  # Multiple conditions\n  from sqlalchemy import and_\n  risks = session.query(Risk).filter(and_(\n      Risk.technology_domain == \"Infrastructure\",\n      Risk.business_disruption_net_exposure.like(\"Critical%\")\n  )).all()\n\n  # Date range query\n  from datetime import date, timedelta\n  thirty_days_ago = date.today() - timedelta(days=30)\n  risks = session.query(Risk).filter(Risk.last_reviewed >= thirty_days_ago).all()\n\n  # Access relationships\n  risk = session.query(Risk).first()\n  log_entries = risk.log_entries  # List of RiskLogEntry objects\n  log_count = len(risk.log_entries)\n\n  # Aggregation\n  from sqlalchemy import func\n  count_by_domain = session.query(\n      Risk.technology_domain,\n      func.count(Risk.risk_id)\n  ).group_by(Risk.technology_domain).all()\n  ```\n\nQUERY RULES (critical):\n- Derive ALL filters/parameters from user_request (keywords, domains, owners, statuses, date ranges)\n- Do NOT hard-code values unless explicitly stated in user_request\n- Build SQLAlchemy queries dynamically using .filter()\n- If a constraint isn't in user_request, don't apply it\n- This is READ-ONLY: Do NOT use session.add(), session.delete(), or session.commit()\n- Only use session.query() for retrieving data\n\nHUMAN RESPONSE REQUIREMENT (hard):\n- You MUST set a variable named `answer_text` (type str) with a clear, helpful answer (1-3 sentences)\n- This is the primary user-facing message\n- If data is found, summarize key findings\n- If no data matches, explain why and suggest alternatives\n- Use natural language, not technical jargon\n\nDATA PRESENTATION:\n- Also set `answer_rows` (list[dict]) with structured results when appropriate\n- Each dict should contain key fields: id, title, category, status, owner, exposure, etc.\n- Keep answer_rows to reasonable size (max 20 items, use .limit() if needed)\n- For large result sets, provide summary stats in answer_text and top N in answer_rows\n\nSTATUS VARIABLE (required):\n- Always set a string `STATUS` to one of:\n  * \"success\" - Query executed and returned results\n  * \"no_results\" - Query executed but found no matching records\n  * \"invalid_request\" - Unable to parse the question or missing information\n  * \"error\" - Query failed due to technical issue\n\nFAILURE & EDGE-CASE HANDLING:\n- no_results: No records match the filters ‚Üí suggest broadening criteria or nearby alternatives\n- invalid_request: Can't understand the question ‚Üí ask for clarification politely\n- error: Technical error ‚Üí explain what went wrong in simple terms\n\nOUTPUT CONTRACT:\n- Return ONLY executable Python between these tags (no extra text):\n  <execute_python>\n  # your python code here\n  </execute_python>\n\nCODE CHECKLIST (follow in code):\n1) Parse intent & constraints from user_request (use regex if helpful)\n2) Build SQLAlchemy query using session.query(Risk).filter(...)\n3) Execute query and collect results\n4) ALWAYS set:\n   - `answer_text` (human-readable summary, required)\n   - `STATUS` (see list above, required)\n   - `answer_rows` (structured data, optional but recommended)\n5) Add a brief log to stdout, e.g., \"LOG: Found 5 risks matching criteria. STATUS=success\"\n\nTONE EXAMPLES (for `answer_text`):\n- success: \"I found 7 critical infrastructure risks. The most recent is 'Database Failure' owned by John Smith.\"\n- no_results: \"I couldn't find any risks in the Cloud domain with high exposure. There are 3 medium-exposure cloud risks available.\"\n- invalid_request: \"I'd be happy to help! Which technology domain are you interested in?\"\n- error: \"I encountered an issue with the date format. Could you specify the date as YYYY-MM-DD?\"\n\nConstraints:\n- Use SQLAlchemy ORM for all queries (never raw SQL)\n- Keep code clear and commented with numbered steps\n- Standard library imports only if needed (already have datetime, etc.)\n\nUser request:\n"

def PROMPT_part3 : String :=
  "\n"

def RETRY_part1 : String :=
  "Your previous code failed with this error:\n\n```\n"

def RETRY_part2 : String :=
  "\n```\n\nOriginal question: "

def RETRY_part3 : String :=
  "\n\nYour failed code:\n```python\n"

def RETRY_part4 : String :=
  "\n```\n\nPlease fix the error and provide corrected code. Common issues:\n- NameError: Module not imported (available modules: re, json, math, statistics)\n- AttributeError: Check field names match the Risk model schema\n- TypeError: Ensure proper type conversions (str to int, date parsing, etc.)\n- Missing null checks: Use `.filter(Risk.field != None)` for null safety\n\nImportant reminders:\n- All modules (re, json, math, statistics) are already available - do NOT import them\n- SQLAlchemy queries must use .filter() not raw SQL\n- Always set answer_text, STATUS, and answer_rows variables\n- Use .like() for string matching, .filter() for exact matches\n\nReturn ONLY the corrected code in <execute_python> tags."

/-- `PROMPT.format(schema_block=..., question=...)`. -/
def PROMPT_format (schema_block question : String) : String :=
  PROMPT_part1 ++ schema_block ++ PROMPT_part2 ++ question ++ PROMPT_part3

/-- The corrective feedback prompt of `risk_sme_agent` step 3.5, built from
the captured error text, the original question and the failed code. -/
def retry_prompt (error question code : String) : String :=
  RETRY_part1 ++ error ++ RETRY_part2 ++ question ++ RETRY_part3 ++ code ++ RETRY_part4

/-- Python truthiness of an optional string (`if exec_res["error"]:` and
`if error:`): `None` and `""` are falsy. -/
def pyTruthyOptStr : Option String → Bool
  | none => false
  | some s => !s.isEmpty

/-- `generate_llm_code` of `risk_sme_agent.py`: build the schema block
(`risk_utils.build_schema_block(session)` — store-read failures propagate),
format the full prompt, call the LLM service (provider/network failures
propagate as exceptions), and return `resp.content[0].text or ""`.

`buildSchema` is the schema-block oracle; `llm` is the LLM-service oracle,
mapping the composed prompt to either raised-exception text
(`Except.error`) or the first content item\'s `text` (`none` models a
`None` text field). -/
def generate_llm_code (buildSchema : Except String String)
    (llm : String → Except String (Option String)) (prompt : String) :
    Except String String × List Event :=
  match buildSchema with
  | .error e => (.error e, [])
  | .ok schema_block =>
    let full_prompt := PROMPT_format schema_block prompt
    match llm full_prompt with
    | .error e => (.error e, [Event.genCall full_prompt])
    | .ok t => (.ok (t.getD ""), [Event.genCall full_prompt])

/-! ## Main agent (`risk_sme_agent`) -/

/-- The dict returned by `risk_sme_agent`: keys `full_content`, `exec`. -/
structure AgentResult where
  full_content : String
  exec : ExecResult
  deriving Repr

/-- The separator placed between the two attempts\' raw contents after a
retry (`full_content = f"\x7bfull_content\x7d\\n\\n---RETRY ATTEMPT---\\n\\n\x7bretry_content\x7d"`). -/
def RETRY_SEP : String := "\n\n---RETRY ATTEMPT---\n\n"

/-- `risk_sme_agent` of `risk_sme_agent.py`: generate code for the
question, execute it; when the captured error text is truthy, generate
corrected code from the feedback prompt and execute it, replacing the
authoritative execution result and concatenating both raw contents.
Exceptions of generation, and the executor\'s `RuntimeError` on empty
content, propagate (`Except.error`).  The decorative `print` banners of
the source write to the host stdout only and carry no information; they
are not modelled. -/
def risk_sme_agent (buildSchema : Except String String)
    (llm : String → Except String (Option String))
    (run : String → ExecOutcome) (question : String) (st : SysState) :
    Except String (AgentResult × SysState) × List Event :=
  match generate_llm_code buildSchema llm question with
  | (.error e, tr1) => (.error e, tr1)
  | (.ok full_content, tr1) =>
    match execute_generated_code run full_content st with
    | (.error e, tr2) => (.error e, tr1 ++ tr2)
    | (.ok (exec_res, st1), tr2) =>
      if pyTruthyOptStr exec_res.error then
        let errText := exec_res.error.getD ""
        let rp := retry_prompt errText question exec_res.code
        match generate_llm_code buildSchema llm rp with
        | (.error e, tr3) => (.error e, tr1 ++ tr2 ++ tr3)
        | (.ok retry_content, tr3) =>
          match execute_generated_code run retry_content st1 with
          | (.error e, tr4) => (.error e, tr1 ++ tr2 ++ tr3 ++ tr4)
          | (.ok (exec_res2, st2), tr4) =>
            (.ok ({ full_content := full_content ++ RETRY_SEP ++ retry_content,
                    exec := exec_res2 }, st2),
             tr1 ++ tr2 ++ tr3 ++ tr4)
      else
        (.ok ({ full_content := full_content, exec := exec_res }, st1), tr1 ++ tr2)

/-! ## HTTP layer (`app/api/endpoints/chat.py`, `app/schemas/chat.py`) -/

/-- `ChatRequest` of `app/schemas/chat.py` (field values after pydantic
parsing; the field constraints are checked by `validChatRequest`). -/
structure ChatRequest where
  question : String
  model : String
  temperature : Rat
  show_code : Bool
  deriving Repr

/-- The pydantic field constraints of `ChatRequest`: `question` has
`min_length=1, max_length=1000`; `temperature` has `ge=0.0, le=1.0`.
FastAPI rejects a request violating them with a 422 before `chat` runs. -/
def validChatRequest (r : ChatRequest) : Bool :=
  1 ≤ r.question.length && r.question.length ≤ 1000 &&
    0 ≤ r.temperature && r.temperature ≤ 1

/-- `ChatResponse` of `app/schemas/chat.py`: `answer: str`, `status: str`,
`answer_rows: list[dict] | None`, `code: str | None`, `error: str | None`,
`execution_log: str | None`. -/
structure ChatResponse where
  answer : String
  status : String
  answer_rows : Option (List (List (String × PyObj)))
  code : Option String
  error : Option String
  execution_log : Option String
  deriving Repr

/-- Pydantic validation of a dynamic Python value against the `status: str`
field: a non-`str` value (e.g. `None` or a list) raises `ValidationError`. -/
def pyToStr? : PyObj → Option String
  | .pystr s => some s
  | _ => none

/-- Pydantic validation of a dynamic Python value against the
`answer_rows: list[dict[str, Any]] | None` field. -/
def pyToRows? : PyObj → Option (Option (List (List (String × PyObj))))
  | .pynone => some none
  | .pylist l =>
    (l.mapM (fun x => match x with | PyObj.pydict d => some d | _ => none)).map some
  | _ => none

/-- The outcome of a request at the HTTP boundary: a 422 from pydantic
request validation, a 400/500 `HTTPException`, or a `ChatResponse`. -/
inductive ChatError where
  | validationError : String → ChatError
  | badRequest : String → ChatError
  | serverError : String → ChatError
  deriving Repr, DecidableEq

/-- 422 and 400 are client errors; 500 is a server failure. -/
def ChatError.isClientError : ChatError → Bool
  | .validationError _ => true
  | .badRequest _ => true
  | .serverError _ => false

/-- The fixed answer literal of the endpoint\'s error branch. -/
def ERROR_ANSWER : String :=
  "An error occurred while processing your question. Please try rephrasing or contact support."

/-- `chat` of `app/api/endpoints/chat.py`: reject an empty/whitespace-only
question with a 400; run the agent, mapping any propagated exception to a
500; read the execution artifacts back; when the error text is truthy
return the fixed error-branch response, otherwise build the normal
response (whose dynamic `status`/`answer_rows` values must pass pydantic
validation — a `ValidationError` is an `Exception`, caught by the same
`except` and mapped to a 500). -/
def chat (buildSchema : Except String String)
    (llm : String → Except String (Option String))
    (run : String → ExecOutcome) (request : ChatRequest) (st : SysState) :
    Except ChatError (ChatResponse × SysState) × List Event :=
  if request.question.isEmpty || (pyStrip request.question).length == 0 then
    (.error (.badRequest "Question cannot be empty"), [])
  else
    match risk_sme_agent buildSchema llm run request.question st with
    | (.error e, tr) => (.error (.serverError ("Internal server error: " ++ e)), tr)
    | (.ok (result, st1), tr) =>
      let exec_result := result.exec
      let answer := exec_result.answer
      let status := exec_result.status
      let answer_rows := exec_result.answer_rows
      let code := if request.show_code then some exec_result.code else none
      let error := exec_result.error
      let execution_log := exec_result.stdout
      if pyTruthyOptStr error then
        (.ok ({ answer := ERROR_ANSWER, status := "error", answer_rows := none,
                code := code, error := error,
                execution_log := some execution_log }, st1), tr)
      else
        match pyToStr? status, pyToRows? answer_rows with
        | some statusStr, some rowsVal =>
          (.ok ({ answer := if answer.truthy then answer.pyStr else "No answer generated",
                  status := statusStr, answer_rows := rowsVal, code := code,
                  error := none, execution_log := some execution_log }, st1), tr)
        | _, _ =>
          (.error (.serverError "Internal server error: response validation failed"), tr)

/-- The full inbound path: pydantic request validation (422 on violation),
then `chat`. -/
def chat_endpoint (buildSchema : Except String String)
    (llm : String → Except String (Option String))
    (run : String → ExecOutcome) (request : ChatRequest) (st : SysState) :
    Except ChatError (ChatResponse × SysState) × List Event :=
  if !validChatRequest request then
    (.error (.validationError "request validation failed"), [])
  else
    chat buildSchema llm run request st

/-! ## Helper lemmas -/

theorem extract_ok_of_ne_empty (text : String) (h : text ≠ "") :
    ∃ c, _extract_execute_block text = Except.ok c := by
  unfold _extract_execute_block
  rw [if_neg h]
  split
  · split
    · exact ⟨_, rfl⟩
    · exact ⟨_, rfl⟩
  · exact ⟨_, rfl⟩

/-- Evaluation of the executor once the extraction step is known. -/
theorem execute_eq (run : String → ExecOutcome) (content code : String) (st : SysState)
    (hc : _extract_execute_block content = Except.ok code) :
    execute_generated_code run content st =
      (Except.ok ({ code := code,
                    stdout := pyStrip (run code).printed,
                    error := (run code).raises,
                    answer := pyOr (localsGet (run code).answer_text)
                      (pyOr (localsGet (run code).answer_rows)
                        (localsGet (run code).answer_json)),
                    status := (run code).STATUS.getD (PyObj.pystr "unknown"),
                    answer_rows := localsGet (run code).answer_rows },
                  { sysStdout := st.sysStdout, hostWritten := st.hostWritten,
                    bufWritten := (run code).printed }),
       [Event.execCall code]) := by
  have hemp : ∀ s : String, "" ++ s = s := fun s => rfl
  unfold execute_generated_code
  rw [hc]
  simp [writeOut, hemp]

theorem execute_error_iff (run : String → ExecOutcome) (content : String) (st : SysState)
    (e : String) (tr : List Event)
    (h : execute_generated_code run content st = (Except.error e, tr)) :
    _extract_execute_block content = Except.error e := by
  cases hc : _extract_execute_block content with
  | error e2 =>
    unfold execute_generated_code at h
    rw [hc] at h
    simp only [Prod.mk.injEq, Except.error.injEq] at h
    rw [h.1]
  | ok code =>
    rw [execute_eq run content code st hc] at h
    simp at h

/-! ## Concrete oracles for witnesses and counterexamples -/

def st0 : SysState := { sysStdout := Chan.hostChan, hostWritten := "", bufWritten := "" }

def stH : SysState :=
  { sysStdout := Chan.hostChan, hostWritten := "host text", bufWritten := "" }

/-- A program that binds nothing and raises. -/
def runRaise : String → ExecOutcome := fun _ =>
  { answer_text := none, answer_rows := none, answer_json := none,
    STATUS := none, printed := "", raises := some "Traceback: boom" }

/-- A program that prints a log line and then raises. -/
def runPrintRaise : String → ExecOutcome := fun _ =>
  { answer_text := none, answer_rows := none, answer_json := none,
    STATUS := none, printed := "LOG line\n", raises := some "Traceback: boom" }

/-- A program that binds `STATUS` and `answer_text` and then raises. -/
def runBindThenRaise : String → ExecOutcome := fun _ =>
  { answer_text := some (PyObj.pystr "hi"), answer_rows := none, answer_json := none,
    STATUS := some (PyObj.pystr "success"), printed := "", raises := some "Traceback: boom" }

/-! ## Claim theorems: the sandboxed executor -/

/-- **C5.** For every execution of a generated program (any `exec`
behaviour `run`, including a raising one) on non-empty content, the
executor returns normally — `Except.ok`, never an exception of its own on
account of the executed program — with the program's full traceback text
in the result's `error` field (`none` when the program completed). -/
theorem executor_catches_program_exceptions (run : String → ExecOutcome)
    (content : String) (st : SysState) (h : content ≠ "") :
    ∃ r st', (execute_generated_code run content st).1 = Except.ok (r, st') ∧
      _extract_execute_block content = Except.ok r.code ∧
      r.error = (run r.code).raises := by
  obtain ⟨code, hc⟩ := extract_ok_of_ne_empty content h
  rw [execute_eq run content code st hc]
  exact ⟨_, _, rfl, hc, rfl⟩

/-- C5 applied to a concrete raising program. -/
theorem executor_catches_program_exceptions_witness :
    ("x = 1" : String) ≠ "" ∧
    (∃ r st', (execute_generated_code runRaise "x = 1" st0).1 = Except.ok (r, st') ∧
      _extract_execute_block "x = 1" = Except.ok r.code ∧
      r.error = (runRaise r.code).raises) :=
  ⟨by decide, executor_catches_program_exceptions runRaise "x = 1" st0 (by decide)⟩

/-- **C6.** Whenever the executor returns, the `sys.stdout` binding equals
its value at entry and nothing was written to the host channel — both when
the program completed and when it raised (the `run` oracle covers both). -/
theorem executor_restores_stdout (run : String → ExecOutcome) (content : String)
    (st : SysState) (r : ExecResult) (st' : SysState)
    (h : (execute_generated_code run content st).1 = Except.ok (r, st')) :
    st'.sysStdout = st.sysStdout ∧ st'.hostWritten = st.hostWritten := by
  cases hc : _extract_execute_block content with
  | error e =>
    unfold execute_generated_code at h
    rw [hc] at h
    simp at h
  | ok code =>
    rw [execute_eq run content code st hc] at h
    simp only [Except.ok.injEq, Prod.mk.injEq] at h
    rw [← h.2]
    exact ⟨rfl, rfl⟩

/-- C6 applied to a concrete program that prints and raises. -/
theorem executor_restores_stdout_witness :
    ({ sysStdout := Chan.hostChan, hostWritten := "host text",
       bufWritten := "LOG line\n" } : SysState).sysStdout = stH.sysStdout ∧
    ({ sysStdout := Chan.hostChan, hostWritten := "host text",
       bufWritten := "LOG line\n" } : SysState).hostWritten = stH.hostWritten :=
  executor_restores_stdout runPrintRaise "x = 1" stH
    { code := "x = 1", stdout := "LOG line", error := some "Traceback: boom",
      answer := PyObj.pynone, status := PyObj.pystr "unknown", answer_rows := PyObj.pynone }
    { sysStdout := Chan.hostChan, hostWritten := "host text", bufWritten := "LOG line\n" }
    (by rfl)

/-- **C10.** On non-empty content the executor always returns a result
with all six fields, whose contract fields are read back from the
program's local bindings even when the program raised: `status` is the
bound `STATUS` (or `"unknown"` when unbound — not an error), `answer` is
the `or`-chain over `answer_text`/`answer_rows`/`answer_json`,
`answer_rows` is the bound rows value, `error` the captured traceback,
`stdout` the stripped captured output. -/
theorem executor_reads_back_contract_variables (run : String → ExecOutcome)
    (content : String) (st : SysState) (h : content ≠ "") :
    ∃ r st', (execute_generated_code run content st).1 = Except.ok (r, st') ∧
      r.status = (run r.code).STATUS.getD (PyObj.pystr "unknown") ∧
      r.answer = pyOr (localsGet (run r.code).answer_text)
        (pyOr (localsGet (run r.code).answer_rows) (localsGet (run r.code).answer_json)) ∧
      r.answer_rows = localsGet (run r.code).answer_rows ∧
      r.error = (run r.code).raises ∧
      r.stdout = pyStrip (run r.code).printed := by
  obtain ⟨code, hc⟩ := extract_ok_of_ne_empty content h
  rw [execute_eq run content code st hc]
  exact ⟨_, _, rfl, rfl, rfl, rfl, rfl, rfl⟩

/-- C10 applied to a program that binds `STATUS` and `answer_text` and
then raises. -/
theorem executor_reads_back_contract_variables_witness :
    ("x = 1" : String) ≠ "" ∧
    (∃ r st', (execute_generated_code runBindThenRaise "x = 1" st0).1 = Except.ok (r, st') ∧
      r.status = (runBindThenRaise r.code).STATUS.getD (PyObj.pystr "unknown") ∧
      r.answer = pyOr (localsGet (runBindThenRaise r.code).answer_text)
        (pyOr (localsGet (runBindThenRaise r.code).answer_rows)
          (localsGet (runBindThenRaise r.code).answer_json)) ∧
      r.answer_rows = localsGet (runBindThenRaise r.code).answer_rows ∧
      r.error = (runBindThenRaise r.code).raises ∧
      r.stdout = pyStrip (runBindThenRaise r.code).printed) :=
  ⟨by decide, executor_reads_back_contract_variables runBindThenRaise "x = 1" st0 (by decide)⟩

/-! ## Claim theorems: the retry protocol -/

theorem genCalls_append (a b : List Event) :
    genCalls (a ++ b) = genCalls a + genCalls b := by
  unfold genCalls
  rw [List.filter_append, List.length_append]

theorem genCalls_generate_le (bs : Except String String)
    (llm : String → Except String (Option String)) (p : String) :
    genCalls (generate_llm_code bs llm p).2 ≤ 1 := by
  unfold generate_llm_code
  cases bs with
  | error e => simp [genCalls]
  | ok sb =>
    dsimp only
    cases h : llm (PROMPT_format sb p) with
    | error e => simp [genCalls, List.filter]
    | ok t => simp [genCalls, List.filter]

theorem genCalls_execute (run : String → ExecOutcome) (content : String) (st : SysState) :
    genCalls (execute_generated_code run content st).2 = 0 := by
  unfold execute_generated_code
  split <;> simp [genCalls, List.filter]

/-- Any run of the agent makes at most two LLM generation calls. -/
theorem agent_genCalls_le_two (bs : Except String String)
    (llm : String → Except String (Option String))
    (run : String → ExecOutcome) (q : String) (st : SysState) :
    genCalls (risk_sme_agent bs llm run q st).2 ≤ 2 := by
  unfold risk_sme_agent
  cases h1 : generate_llm_code bs llm q with
  | mk res1 tr1 =>
    have hg1 : genCalls tr1 ≤ 1 := by
      have h := genCalls_generate_le bs llm q
      rw [h1] at h
      exact h
    cases res1 with
    | error e =>
      dsimp only
      omega
    | ok c1 =>
      dsimp only
      cases h2 : execute_generated_code run c1 st with
      | mk res2 tr2 =>
        have he2 : genCalls tr2 = 0 := by
          have h := genCalls_execute run c1 st
          rw [h2] at h
          exact h
        cases res2 with
        | error e =>
          dsimp only
          rw [genCalls_append]
          omega
        | ok p1 =>
          cases p1 with
          | mk r1 st1 =>
            dsimp only
            by_cases herr : pyTruthyOptStr r1.error = true
            · rw [if_pos herr]
              cases h3 : generate_llm_code bs llm (retry_prompt (r1.error.getD "") q r1.code) with
              | mk res3 tr3 =>
                have hg3 : genCalls tr3 ≤ 1 := by
                  have h := genCalls_generate_le bs llm (retry_prompt (r1.error.getD "") q r1.code)
                  rw [h3] at h
                  exact h
                cases res3 with
                | error e =>
                  dsimp only
                  rw [genCalls_append, genCalls_append]
                  omega
                | ok c2 =>
                  dsimp only
                  cases h4 : execute_generated_code run c2 st1 with
                  | mk res4 tr4 =>
                    have he4 : genCalls tr4 = 0 := by
                      have h := genCalls_execute run c2 st1
                      rw [h4] at h
                      exact h
                    cases res4 with
                    | error e =>
                      dsimp only
                      rw [genCalls_append, genCalls_append, genCalls_append]
                      omega
                    | ok p2 =>
                      cases p2 with
                      | mk r2 st2 =>
                        dsimp only
                        rw [genCalls_append, genCalls_append, genCalls_append]
                        omega
            · rw [if_neg herr]
              dsimp only
              rw [genCalls_append]
              omega

/-- **C3.** The retry protocol of `risk_sme_agent`: (i) at most two
generation calls ever occur; (ii) when the first attempt's execution
captures no error, no retry occurs — the agent returns the first
attempt's result and raw content after exactly one generation and one
execution; (iii) when it captures a (non-empty) error, exactly one
corrective regeneration and re-execution occurs, the returned Execution
Result is the second attempt's whatever its outcome, and the retained raw
content is the concatenation of both attempts' raw texts (separated by
the `---RETRY ATTEMPT---` marker).  (`traceback.format_exc()` never
produces an empty string, so the non-empty proviso in (iii) is vacuous in
Python.) -/
theorem agent_retry_protocol (bs : Except String String)
    (llm : String → Except String (Option String)) (run : String → ExecOutcome)
    (q : String) (st : SysState)
    (c1 : String) (tr1 : List Event) (r1 : ExecResult) (st1 : SysState) (tre1 : List Event)
    (h1 : generate_llm_code bs llm q = (Except.ok c1, tr1))
    (h2 : execute_generated_code run c1 st = (Except.ok (r1, st1), tre1)) :
    genCalls (risk_sme_agent bs llm run q st).2 ≤ 2 ∧
    (r1.error = none →
      risk_sme_agent bs llm run q st =
        (Except.ok ({ full_content := c1, exec := r1 }, st1), tr1 ++ tre1)) ∧
    (∀ e, r1.error = some e → e ≠ "" →
      ∀ c2 tr2 r2 st2 tre2,
        generate_llm_code bs llm (retry_prompt e q r1.code) = (Except.ok c2, tr2) →
        execute_generated_code run c2 st1 = (Except.ok (r2, st2), tre2) →
        risk_sme_agent bs llm run q st =
          (Except.ok ({ full_content := c1 ++ RETRY_SEP ++ c2, exec := r2 }, st2),
           tr1 ++ tre1 ++ tr2 ++ tre2)) := by
  refine ⟨agent_genCalls_le_two bs llm run q st, ?_, ?_⟩
  · intro herr
    unfold risk_sme_agent
    rw [h1]
    dsimp only
    rw [h2]
    dsimp only
    rw [herr]
    simp [pyTruthyOptStr]
  · intro e he hne c2 tr2 r2 st2 tre2 h3 h4
    unfold risk_sme_agent
    rw [h1]
    dsimp only
    rw [h2]
    dsimp only
    rw [he]
    have hb : e.isEmpty = false := by
      rw [← Bool.not_eq_true, String.isEmpty_iff]
      exact hne
    have htr : pyTruthyOptStr (some e) = true := by simp [pyTruthyOptStr, hb]
    rw [if_pos htr]
    dsimp only [Option.getD]
    rw [h3]
    dsimp only
    rw [h4]

/-- Concrete oracles for the retry-protocol witness: the LLM always
produces the same program, which raises on both attempts. -/
def bsW : Except String String := Except.ok "S"

def llmW : String → Except String (Option String) := fun _ =>
  Except.ok (some "<execute_python>BAD</execute_python>")

def runW : String → ExecOutcome := fun c =>
  if c = "BAD" then
    { answer_text := none, answer_rows := none, answer_json := none,
      STATUS := none, printed := "", raises := some "Traceback: boom" }
  else
    { answer_text := some (PyObj.pystr "fixed"), answer_rows := none, answer_json := none,
      STATUS := some (PyObj.pystr "success"), printed := "", raises := none }

def r1W : ExecResult :=
  { code := "BAD", stdout := "", error := some "Traceback: boom",
    answer := PyObj.pynone, status := PyObj.pystr "unknown", answer_rows := PyObj.pynone }

/-- C3 applied to a concrete failing first attempt: the retry happens,
and the second attempt's result (here again failing) is authoritative. -/
theorem agent_retry_protocol_witness :
    risk_sme_agent bsW llmW runW "q" st0 =
      (Except.ok ({ full_content := "<execute_python>BAD</execute_python>" ++ RETRY_SEP ++
                      "<execute_python>BAD</execute_python>",
                    exec := r1W }, st0),
       [Event.genCall (PROMPT_format "S" "q"), Event.execCall "BAD",
        Event.genCall (PROMPT_format "S" (retry_prompt "Traceback: boom" "q" "BAD")),
        Event.execCall "BAD"]) :=
  (agent_retry_protocol bsW llmW runW "q" st0
      "<execute_python>BAD</execute_python>" [Event.genCall (PROMPT_format "S" "q")]
      r1W st0 [Event.execCall "BAD"] (by rfl) (by rfl)).2.2
    "Traceback: boom" rfl (by decide)
    "<execute_python>BAD</execute_python>"
    [Event.genCall (PROMPT_format "S" (retry_prompt "Traceback: boom" "q" "BAD"))]
    r1W st0 [Event.execCall "BAD"] (by rfl) (by rfl)

/-! ## Helper lemmas for the endpoint -/

theorem pyToStr_some (v : PyObj) (s : String) (h : pyToStr? v = some s) :
    v = PyObj.pystr s := by
  cases v <;> simp_all [pyToStr?]

/-- Inversion of a successful `chat_endpoint` call: the response is the
error-branch record or the normal record, each a function of the agent's
execution result. -/
theorem chat_ok_inv (bs : Except String String)
    (llm : String → Except String (Option String)) (run : String → ExecOutcome)
    (request : ChatRequest) (st : SysState) (resp : ChatResponse) (st1 : SysState)
    (tr : List Event) (ar : AgentResult) (st2 : SysState) (tra : List Event)
    (h : chat_endpoint bs llm run request st = (Except.ok (resp, st1), tr))
    (ha : risk_sme_agent bs llm run request.question st = (Except.ok (ar, st2), tra)) :
    st1 = st2 ∧ tr = tra ∧
    resp.code = (if request.show_code then some ar.exec.code else none) ∧
    resp.execution_log = some ar.exec.stdout ∧
    ((pyTruthyOptStr ar.exec.error = true ∧
        resp.answer = ERROR_ANSWER ∧ resp.status = "error" ∧
        resp.answer_rows = none ∧ resp.error = ar.exec.error) ∨
     (pyTruthyOptStr ar.exec.error = false ∧
        resp.answer = (if ar.exec.answer.truthy then ar.exec.answer.pyStr
                       else "No answer generated") ∧
        PyObj.pystr resp.status = ar.exec.status ∧
        pyToRows? ar.exec.answer_rows = some resp.answer_rows ∧
        resp.error = none)) := by
  unfold chat_endpoint at h
  by_cases hv : validChatRequest request
  case neg =>
    rw [if_pos (by simp [hv])] at h
    simp at h
  case pos =>
    rw [if_neg (by simp [hv])] at h
    unfold chat at h
    by_cases hq : (request.question.isEmpty || ((pyStrip request.question).length == 0)) = true
    · rw [if_pos hq] at h
      simp at h
    · rw [if_neg hq] at h
      rw [ha] at h
      dsimp only at h
      by_cases he : pyTruthyOptStr ar.exec.error = true
      · rw [if_pos he] at h
        simp only [Prod.mk.injEq, Except.ok.injEq] at h
        obtain ⟨⟨hresp, hst⟩, htr⟩ := h
        subst hresp
        subst hst
        subst htr
        exact ⟨rfl, rfl, rfl, rfl, Or.inl ⟨he, rfl, rfl, rfl, rfl⟩⟩
      · rw [if_neg he] at h
        cases hs : pyToStr? ar.exec.status with
        | none =>
          rw [hs] at h
          simp at h
        | some statusStr =>
          cases hr : pyToRows? ar.exec.answer_rows with
          | none =>
            rw [hs, hr] at h
            simp at h
          | some rowsVal =>
            rw [hs, hr] at h
            dsimp only at h
            simp only [Prod.mk.injEq, Except.ok.injEq] at h
            obtain ⟨⟨hresp, hst⟩, htr⟩ := h
            subst hresp
            subst hst
            subst htr
            refine ⟨rfl, rfl, rfl, rfl, Or.inr ⟨by simpa using he, rfl, ?_, rfl, rfl⟩⟩
            rw [← pyToStr_some ar.exec.status statusStr hs]

/-! ## Concrete endpoint scenarios -/

/-- The LLM service returning a fixed well-formed program. -/
def llmG : String → Except String (Option String) := fun _ =>
  Except.ok (some "<execute_python>x = 1</execute_python>")

/-- A program that binds the contract variables and completes. -/
def runG : String → ExecOutcome := fun _ =>
  { answer_text := some (PyObj.pystr "hi"), answer_rows := none, answer_json := none,
    STATUS := some (PyObj.pystr "success"), printed := "", raises := none }

/-- A program that binds `STATUS` to a string outside the four-value
enumeration and completes. -/
def runWeird : String → ExecOutcome := fun _ =>
  { answer_text := some (PyObj.pystr "hello"), answer_rows := none, answer_json := none,
    STATUS := some (PyObj.pystr "weird"), printed := "", raises := none }

/-- A 21-element `answer_rows` list. -/
def rows21 : PyObj :=
  PyObj.pylist (List.replicate 21 (PyObj.pydict [("id", PyObj.pystr "TR-1")]))

/-- A program that binds a 21-element `answer_rows` and completes. -/
def runRows21 : String → ExecOutcome := fun _ =>
  { answer_text := some (PyObj.pystr "many"), answer_rows := some rows21, answer_json := none,
    STATUS := some (PyObj.pystr "success"), printed := "", raises := none }

/-- The LLM service raising a provider/network exception. -/
def llmFail : String → Except String (Option String) := fun _ =>
  Except.error "provider down"

def reqPlain : ChatRequest :=
  { question := "show risks", model := "m", temperature := 0, show_code := false }

def reqShow : ChatRequest :=
  { question := "show risks", model := "m", temperature := 0, show_code := true }

def reqBlank : ChatRequest :=
  { question := " ", model := "m", temperature := 0, show_code := false }

/-- The trace of a single successful attempt on `reqPlain`'s question. -/
def trPlain : List Event :=
  [Event.genCall (PROMPT_format "S" "show risks"), Event.execCall "x = 1"]

def arWeird : AgentResult :=
  { full_content := "<execute_python>x = 1</execute_python>",
    exec := { code := "x = 1", stdout := "", error := none,
              answer := PyObj.pystr "hello", status := PyObj.pystr "weird",
              answer_rows := PyObj.pynone } }

def respWeird : ChatResponse :=
  { answer := "hello", status := "weird", answer_rows := none,
    code := none, error := none, execution_log := some "" }

/-! ## Claim theorems: the endpoint -/

/-- **C9.** A question that is empty or whitespace-only is rejected with a
client error (pydantic 422 for the empty string, the endpoint's own 400
otherwise) with an empty event trace: no LLM call and no program
execution occurs. -/
theorem blank_question_rejected_before_generation (bs : Except String String)
    (llm : String → Except String (Option String)) (run : String → ExecOutcome)
    (request : ChatRequest) (st : SysState)
    (h : pyStrip request.question = "") :
    ∃ e, chat_endpoint bs llm run request st = (Except.error e, []) ∧
      e.isClientError = true := by
  unfold chat_endpoint
  by_cases hv : validChatRequest request
  · rw [if_neg (by simp [hv])]
    unfold chat
    rw [if_pos (by simp [h])]
    exact ⟨_, rfl, rfl⟩
  · rw [if_pos (by simp [hv])]
    exact ⟨_, rfl, rfl⟩

/-- C9 applied to the one-space question. -/
theorem blank_question_rejected_before_generation_witness :
    pyStrip reqBlank.question = "" ∧
    (∃ e, chat_endpoint bsW llmG runG reqBlank st0 = (Except.error e, []) ∧
      e.isClientError = true) :=
  ⟨by rfl, blank_question_rejected_before_generation bsW llmG runG reqBlank st0 (by rfl)⟩

/-- **C8.** For every completed request, the response's `code` is `none`
when `show_code` is false and is the authoritative attempt's extracted
program text when true (`ar.exec` is the authoritative Execution Result,
and every execution result's `code` field is the extraction of the
executed content). -/
theorem chat_code_field (bs : Except String String)
    (llm : String → Except String (Option String)) (run : String → ExecOutcome)
    (request : ChatRequest) (st : SysState) (resp : ChatResponse) (st1 : SysState)
    (tr : List Event) (ar : AgentResult) (st2 : SysState) (tra : List Event)
    (h : chat_endpoint bs llm run request st = (Except.ok (resp, st1), tr))
    (ha : risk_sme_agent bs llm run request.question st = (Except.ok (ar, st2), tra)) :
    resp.code = (if request.show_code then some ar.exec.code else none) ∧
    (∀ (run2 : String → ExecOutcome) (content : String) (st3 : SysState)
        (r : ExecResult) (st4 : SysState) (tr2 : List Event),
      execute_generated_code run2 content st3 = (Except.ok (r, st4), tr2) →
      _extract_execute_block content = Except.ok r.code) := by
  refine ⟨(chat_ok_inv bs llm run request st resp st1 tr ar st2 tra h ha).2.2.1, ?_⟩
  intro run2 content st3 r st4 tr2 hex
  cases hc : _extract_execute_block content with
  | error e =>
    unfold execute_generated_code at hex
    rw [hc] at hex
    simp at hex
  | ok code =>
    rw [execute_eq run2 content code st3 hc] at hex
    simp only [Prod.mk.injEq, Except.ok.injEq] at hex
    rw [← hex.1.1]

def arShow : AgentResult :=
  { full_content := "<execute_python>x = 1</execute_python>",
    exec := { code := "x = 1", stdout := "", error := none,
              answer := PyObj.pystr "hi", status := PyObj.pystr "success",
              answer_rows := PyObj.pynone } }

def respShow : ChatResponse :=
  { answer := "hi", status := "success", answer_rows := none,
    code := some "x = 1", error := none, execution_log := some "" }

/-- C8 applied to a concrete request with `show_code = true`. -/
theorem chat_code_field_witness :
    respShow.code = (if reqShow.show_code then some arShow.exec.code else none) ∧
    (∀ (run2 : String → ExecOutcome) (content : String) (st3 : SysState)
        (r : ExecResult) (st4 : SysState) (tr2 : List Event),
      execute_generated_code run2 content st3 = (Except.ok (r, st4), tr2) →
      _extract_execute_block content = Except.ok r.code) :=
  chat_code_field bsW llmG runG reqShow st0 respShow st0 trPlain arShow st0 trPlain
    (by rfl) (by rfl)

/-- **C1 (counterexample).** A generated program that completes normally
and binds `STATUS = "weird"` produces a Final Answer whose `status` is
`"weird"` — outside the four enumerated values; nothing in the host
enforces the enumeration. -/
theorem chat_status_enum_counterexample :
    (chat_endpoint bsW llmG runWeird reqPlain st0).1 = Except.ok (respWeird, st0) ∧
    respWeird.status = "weird" ∧
    "weird" ∉ (["success", "no_results", "invalid_request", "error"] : List String) :=
  ⟨by rfl, rfl, by decide⟩

/-- **C1 (amended).** The Final Answer's `status` is `"error"` whenever an
execution error was captured; otherwise it is exactly the status string of
the authoritative Execution Result — which is whatever string the program
bound to `STATUS`, or `"unknown"` when `STATUS` is unbound.  No host
component restricts it to the four enumerated values. -/
theorem chat_status_amended (bs : Except String String)
    (llm : String → Except String (Option String)) (run : String → ExecOutcome)
    (request : ChatRequest) (st : SysState) (resp : ChatResponse) (st1 : SysState)
    (tr : List Event) (ar : AgentResult) (st2 : SysState) (tra : List Event)
    (h : chat_endpoint bs llm run request st = (Except.ok (resp, st1), tr))
    (ha : risk_sme_agent bs llm run request.question st = (Except.ok (ar, st2), tra)) :
    (pyTruthyOptStr ar.exec.error = true → resp.status = "error") ∧
    (pyTruthyOptStr ar.exec.error = false → PyObj.pystr resp.status = ar.exec.status) ∧
    (∀ (run2 : String → ExecOutcome) (content : String) (st3 : SysState)
        (r : ExecResult) (st4 : SysState) (tr2 : List Event),
      execute_generated_code run2 content st3 = (Except.ok (r, st4), tr2) →
      r.status = (run2 r.code).STATUS.getD (PyObj.pystr "unknown")) := by
  obtain ⟨-, -, -, -, hcase⟩ := chat_ok_inv bs llm run request st resp st1 tr ar st2 tra h ha
  refine ⟨?_, ?_, ?_⟩
  · intro ht
    rcases hcase with ⟨-, -, hs, -, -⟩ | ⟨hf, -⟩
    · exact hs
    · rw [ht] at hf
      simp at hf
  · intro hf
    rcases hcase with ⟨ht, -⟩ | ⟨-, -, hs, -⟩
    · rw [hf] at ht
      simp at ht
    · exact hs
  · intro run2 content st3 r st4 tr2 hex
    cases hc : _extract_execute_block content with
    | error e =>
      unfold execute_generated_code at hex
      rw [hc] at hex
      simp at hex
    | ok code =>
      rw [execute_eq run2 content code st3 hc] at hex
      simp only [Prod.mk.injEq, Except.ok.injEq] at hex
      rw [← hex.1.1]

/-- C1 (amended) applied to the `STATUS = "weird"` scenario. -/
theorem chat_status_amended_witness :
    (pyTruthyOptStr arWeird.exec.error = true → respWeird.status = "error") ∧
    (pyTruthyOptStr arWeird.exec.error = false →
      PyObj.pystr respWeird.status = arWeird.exec.status) ∧
    (∀ (run2 : String → ExecOutcome) (content : String) (st3 : SysState)
        (r : ExecResult) (st4 : SysState) (tr2 : List Event),
      execute_generated_code run2 content st3 = (Except.ok (r, st4), tr2) →
      r.status = (run2 r.code).STATUS.getD (PyObj.pystr "unknown")) :=
  chat_status_amended bsW llmG runWeird reqPlain st0 respWeird st0 trPlain arWeird st0 trPlain
    (by rfl) (by rfl)

def respRows21 : ChatResponse :=
  { answer := "many", status := "success",
    answer_rows := some (List.replicate 21 [("id", PyObj.pystr "TR-1")]),
    code := none, error := none, execution_log := some "" }

def arRows21 : AgentResult :=
  { full_content := "<execute_python>x = 1</execute_python>",
    exec := { code := "x = 1", stdout := "", error := none,
              answer := PyObj.pystr "many", status := PyObj.pystr "success",
              answer_rows := rows21 } }

/-- **C2 (counterexample).** A generated program that binds 21 rows yields
a Final Answer whose `answer_rows` has 21 elements: the host does not
truncate to 20. -/
theorem chat_rows_cap_counterexample :
    (chat_endpoint bsW llmG runRows21 reqPlain st0).1 = Except.ok (respRows21, st0) ∧
    (∃ rows, respRows21.answer_rows = some rows ∧ rows.length = 21 ∧ ¬ rows.length ≤ 20) :=
  ⟨by rfl, ⟨List.replicate 21 [("id", PyObj.pystr "TR-1")], rfl, by decide, by decide⟩⟩

/-- **C2 (amended).** `answer_rows` is passed through exactly as the
program bound it (it is `none` on the error branch): the host performs no
truncation — the 20-row cap is only an instruction in the generation
prompt. -/
theorem chat_rows_passthrough (bs : Except String String)
    (llm : String → Except String (Option String)) (run : String → ExecOutcome)
    (request : ChatRequest) (st : SysState) (resp : ChatResponse) (st1 : SysState)
    (tr : List Event) (ar : AgentResult) (st2 : SysState) (tra : List Event)
    (h : chat_endpoint bs llm run request st = (Except.ok (resp, st1), tr))
    (ha : risk_sme_agent bs llm run request.question st = (Except.ok (ar, st2), tra)) :
    (pyTruthyOptStr ar.exec.error = false →
      pyToRows? ar.exec.answer_rows = some resp.answer_rows) ∧
    (pyTruthyOptStr ar.exec.error = true → resp.answer_rows = none) ∧
    (∀ (run2 : String → ExecOutcome) (content : String) (st3 : SysState)
        (r : ExecResult) (st4 : SysState) (tr2 : List Event),
      execute_generated_code run2 content st3 = (Except.ok (r, st4), tr2) →
      r.answer_rows = localsGet (run2 r.code).answer_rows) := by
  obtain ⟨-, -, -, -, hcase⟩ := chat_ok_inv bs llm run request st resp st1 tr ar st2 tra h ha
  refine ⟨?_, ?_, ?_⟩
  · intro hf
    rcases hcase with ⟨ht, -⟩ | ⟨-, -, -, hr, -⟩
    · rw [hf] at ht
      simp at ht
    · exact hr
  · intro ht
    rcases hcase with ⟨-, -, -, hr, -⟩ | ⟨hf, -⟩
    · exact hr
    · rw [ht] at hf
      simp at hf
  · intro run2 content st3 r st4 tr2 hex
    cases hc : _extract_execute_block content with
    | error e =>
      unfold execute_generated_code at hex
      rw [hc] at hex
      simp at hex
    | ok code =>
      rw [execute_eq run2 content code st3 hc] at hex
      simp only [Prod.mk.injEq, Except.ok.injEq] at hex
      rw [← hex.1.1]

/-- C2 (amended) applied to the 21-row scenario. -/
theorem chat_rows_passthrough_witness :
    (pyTruthyOptStr arRows21.exec.error = false →
      pyToRows? arRows21.exec.answer_rows = some respRows21.answer_rows) ∧
    (pyTruthyOptStr arRows21.exec.error = true → respRows21.answer_rows = none) ∧
    (∀ (run2 : String → ExecOutcome) (content : String) (st3 : SysState)
        (r : ExecResult) (st4 : SysState) (tr2 : List Event),
      execute_generated_code run2 content st3 = (Except.ok (r, st4), tr2) →
      r.answer_rows = localsGet (run2 r.code).answer_rows) :=
  chat_rows_passthrough bsW llmG runRows21 reqPlain st0 respRows21 st0 trPlain arRows21 st0
    trPlain (by rfl) (by rfl)

/-- **C4 (counterexample).** When the LLM call itself raises, the request
fails at request level with a 500 server error — it is not converted into
a structured Final Answer with status `error`. -/
theorem chat_generation_failure_counterexample :
    (chat_endpoint bsW llmFail runG reqPlain st0).1 =
      Except.error (ChatError.serverError "Internal server error: provider down") ∧
    (ChatError.serverError "Internal server error: provider down").isClientError = false :=
  ⟨by rfl, rfl⟩

/-- **C4 (amended).** A failure of the generation call propagates out of
the agent uncaught and is mapped by the endpoint's `except` clause to a
request-level `HTTPException 500` (`"Internal server error: …"`), not to a
structured Final Answer; only input validation produces client errors. -/
theorem generation_failure_surfaces_as_500 (bs : Except String String)
    (llm : String → Except String (Option String)) (run : String → ExecOutcome)
    (request : ChatRequest) (st : SysState) (sb e : String)
    (hv : validChatRequest request = true)
    (hq : (request.question.isEmpty || ((pyStrip request.question).length == 0)) = false)
    (hbs : bs = Except.ok sb)
    (hllm : llm (PROMPT_format sb request.question) = Except.error e) :
    chat_endpoint bs llm run request st =
      (Except.error (ChatError.serverError ("Internal server error: " ++ e)),
       [Event.genCall (PROMPT_format sb request.question)]) := by
  unfold chat_endpoint
  rw [if_neg (by simp [hv])]
  unfold chat
  rw [if_neg (by simp [hq])]
  unfold risk_sme_agent generate_llm_code
  subst hbs
  dsimp only
  rw [hllm]

/-- C4 (amended) applied to a concrete provider failure. -/
theorem generation_failure_surfaces_as_500_witness :
    chat_endpoint bsW llmFail runG reqPlain st0 =
      (Except.error (ChatError.serverError ("Internal server error: " ++ "provider down")),
       [Event.genCall (PROMPT_format "S" reqPlain.question)]) :=
  generation_failure_surfaces_as_500 bsW llmFail runG reqPlain st0 "S" "provider down"
    (by rfl) (by rfl) rfl (by rfl)

def arRaise : AgentResult :=
  { full_content := "<execute_python>x = 1</execute_python>" ++ RETRY_SEP ++
      "<execute_python>x = 1</execute_python>",
    exec := { code := "x = 1", stdout := "", error := some "Traceback: boom",
              answer := PyObj.pystr "hi", status := PyObj.pystr "success",
              answer_rows := PyObj.pynone } }

def respRaise : ChatResponse :=
  { answer := ERROR_ANSWER, status := "error", answer_rows := none,
    code := none, error := some "Traceback: boom", execution_log := some "" }

def trRaise : List Event :=
  [Event.genCall (PROMPT_format "S" "show risks"), Event.execCall "x = 1",
   Event.genCall (PROMPT_format "S" (retry_prompt "Traceback: boom" "show risks" "x = 1")),
   Event.execCall "x = 1"]

/-- **C7 (counterexample).** A program that binds `answer_text = "hi"` and
then raises (on both attempts) yields a Final Answer whose `answer` is the
fixed error literal, not the bound answer string — the claim's "answer
equals the program's answer string when one was bound" fails whenever an
exception was also captured. -/
theorem chat_answer_counterexample :
    (chat_endpoint bsW llmG runBindThenRaise reqPlain st0).1 =
      Except.ok (respRaise, st0) ∧
    (runBindThenRaise "x = 1").answer_text = some (PyObj.pystr "hi") ∧
    respRaise.answer = ERROR_ANSWER ∧
    ERROR_ANSWER ≠ "hi" :=
  ⟨by rfl, rfl, rfl, by decide⟩

/-- **C7 (amended).** `error` is non-null exactly when an execution error
was captured.  When one was captured, `answer` is the fixed error literal
(whatever the program bound); otherwise `answer` is the Python-truthiness
`or`-chain over the bound `answer_text`, `answer_rows` and `answer_json`,
stringified, with the fixed fallback `"No answer generated"` when the
whole chain is falsy. -/
theorem chat_answer_normalization (bs : Except String String)
    (llm : String → Except String (Option String)) (run : String → ExecOutcome)
    (request : ChatRequest) (st : SysState) (resp : ChatResponse) (st1 : SysState)
    (tr : List Event) (ar : AgentResult) (st2 : SysState) (tra : List Event)
    (h : chat_endpoint bs llm run request st = (Except.ok (resp, st1), tr))
    (ha : risk_sme_agent bs llm run request.question st = (Except.ok (ar, st2), tra)) :
    (pyTruthyOptStr ar.exec.error = true →
      resp.answer = ERROR_ANSWER ∧ resp.error = ar.exec.error) ∧
    (pyTruthyOptStr ar.exec.error = false →
      resp.error = none ∧
      resp.answer = (if ar.exec.answer.truthy then ar.exec.answer.pyStr
                     else "No answer generated")) ∧
    (∀ (run2 : String → ExecOutcome) (content : String) (st3 : SysState)
        (r : ExecResult) (st4 : SysState) (tr2 : List Event),
      execute_generated_code run2 content st3 = (Except.ok (r, st4), tr2) →
      r.answer = pyOr (localsGet (run2 r.code).answer_text)
        (pyOr (localsGet (run2 r.code).answer_rows) (localsGet (run2 r.code).answer_json))) := by
  obtain ⟨-, -, -, -, hcase⟩ := chat_ok_inv bs llm run request st resp st1 tr ar st2 tra h ha
  refine ⟨?_, ?_, ?_⟩
  · intro ht
    rcases hcase with ⟨-, hans, -, -, herr⟩ | ⟨hf, -⟩
    · exact ⟨hans, herr⟩
    · rw [ht] at hf
      simp at hf
  · intro hf
    rcases hcase with ⟨ht, -⟩ | ⟨-, hans, -, -, herr⟩
    · rw [hf] at ht
      simp at ht
    · exact ⟨herr, hans⟩
  · intro run2 content st3 r st4 tr2 hex
    cases hc : _extract_execute_block content with
    | error e =>
      unfold execute_generated_code at hex
      rw [hc] at hex
      simp at hex
    | ok code =>
      rw [execute_eq run2 content code st3 hc] at hex
      simp only [Prod.mk.injEq, Except.ok.injEq] at hex
      rw [← hex.1.1]

/-- C7 (amended) applied to the bind-then-raise scenario. -/
theorem chat_answer_normalization_witness :
    (pyTruthyOptStr arRaise.exec.error = true →
      respRaise.answer = ERROR_ANSWER ∧ respRaise.error = arRaise.exec.error) ∧
    (pyTruthyOptStr arRaise.exec.error = false →
      respRaise.error = none ∧
      respRaise.answer = (if arRaise.exec.answer.truthy then arRaise.exec.answer.pyStr
                          else "No answer generated")) ∧
    (∀ (run2 : String → ExecOutcome) (content : String) (st3 : SysState)
        (r : ExecResult) (st4 : SysState) (tr2 : List Event),
      execute_generated_code run2 content st3 = (Except.ok (r, st4), tr2) →
      r.answer = pyOr (localsGet (run2 r.code).answer_text)
        (pyOr (localsGet (run2 r.code).answer_rows) (localsGet (run2 r.code).answer_json))) :=
  chat_answer_normalization bsW llmG runBindThenRaise reqPlain st0 respRaise st0 trRaise
    arRaise st0 trRaise (by rfl) (by rfl)

end RiskSME
